import Mathlib

/-! Shallow embedding of the LS-8 virtual machine implemented in `ls8/cpu.py`.

Modelling conventions:
* Machine words are unbounded integers (`Int`), exactly like Python integers;
  the source nowhere masks register contents to 8 bits, and several operations
  (subtraction, decrement, bitwise not) can make a register negative.
* The 256-cell memory list `self.ram` and the 8-cell register list `self.reg`
  are modelled as total maps `Int → Int`; every property below only accesses
  indices that are in bounds in the source program.
* Python exceptions that escape to the caller (the TypeError raised by a
  wrong-arity call, the re-raised "Unsupported ALU operation") are modelled
  with `Except String`.
* `print` calls only touch stdout, which no property observes; they leave the
  machine state unchanged.  The diagnostic printed before `sys.exit(1)` is
  carried in the loop result instead.
* Wall-clock time (`datetime.now()`) and the console (`msvcrt.kbhit`,
  `msvcrt.getch`) are external inputs; the step function receives the timer
  comparison outcome, the pressed key and the current time as parameters.
* Python true division `/=` in the DIV operation produces a float; no claim
  observes the stored quotient, and the model stores the floor of the quotient
  (`Int.fdiv`).  The zero-divisor case, which every claim about DIV is about,
  is modelled exactly: the ZeroDivisionError is caught by the bare `except`
  and re-raised as "Unsupported ALU operation". -/

namespace LS8

/-- Opcode constants, verbatim from the top of `cpu.py`. -/
def LDI : Int := 0b10000010

def PRN : Int := 0b01000111

def HLT : Int := 0b00000001

def ADD : Int := 0b10100000

def SUB : Int := 0b10100001

def MUL : Int := 0b10100010

def DIV : Int := 0b10100011

def MOD : Int := 0b10100100

def DEC : Int := 0b01100110

def INC : Int := 0b01100101

def POP : Int := 0b01000110

def PUSH : Int := 0b01000101

def CALL : Int := 0b01010000

def RET : Int := 0b00010001

def CMP : Int := 0b10100111

def JMP : Int := 0b01010100

def JEQ : Int := 0b01010101

def JNE : Int := 0b01010110

def AND : Int := 0b10101000

def OR : Int := 0b10101010

def XOR : Int := 0b10101011

def NOT : Int := 0b01101001

def SHL : Int := 0b10101100

def SHR : Int := 0b10101101

def INT : Int := 0b01010010

def IRET : Int := 0b00010011

def JGE : Int := 0b01011010

def JGT : Int := 0b01010111

def JLE : Int := 0b01011001

def JLT : Int := 0b01011000

def LD : Int := 0b10000011

def NOP : Int := 0b00000000

def PRA : Int := 0b01001000

def ST : Int := 0b10000100

/-- The register index of the keyboard buffer cell, `self.KEY = 0xF4`. -/
def KEY : Int := 0xF4

/-- The machine state built by `CPU.__init__`: program counter, flags register,
memory, register file, the interrupt enable flag and the timer baseline.
Registers 5, 6 and 7 play the roles IM, IS and SP. -/
structure State where
  PC : Int
  FL : Int
  ram : Int → Int
  reg : Int → Int
  interrupts_allowed : Bool
  timer : Int

/-- `ram_read`: `return self.ram[mar]`. -/
def ram_read (s : State) (mar : Int) : Int := s.ram mar

/-- `ram_write`: `self.ram[mar] = mdr`. -/
def ram_write (s : State) (mar mdr : Int) : State :=
  { s with ram := fun i => if i = mar then mdr else s.ram i }

/-- `reg_write`: `self.reg[register] = value`. -/
def reg_write (s : State) (register value : Int) : State :=
  { s with reg := fun i => if i = register then value else s.reg i }

/-- `pop_stack`: copy the cell at the stack pointer into the named register,
then increment the stack pointer (register 7). -/
def pop_stack (s : State) (reg_address : Int) : State :=
  let s1 := reg_write s reg_address (ram_read s (s.reg 7))
  reg_write s1 7 (s1.reg 7 + 1)

/-- `push_stack`: decrement the stack pointer, then store the named register
at the new stack pointer. -/
def push_stack (s : State) (reg_address : Int) : State :=
  let s1 := reg_write s 7 (s.reg 7 - 1)
  ram_write s1 (s1.reg 7) (s1.reg reg_address)

/-- `call`: decrement the stack pointer, store `PC + 2` there, then jump to
the address held in the named register. -/
def call (s : State) (reg_address : Int) : State :=
  let s1 := reg_write s 7 (s.reg 7 - 1)
  let s2 := ram_write s1 (s1.reg 7) (s1.PC + 2)
  { s2 with PC := s2.reg reg_address }

/-- `ret`: pop the return address into the program counter. -/
def ret (s : State) : State :=
  let s1 := { s with PC := ram_read s (s.reg 7) }
  reg_write s1 7 (s1.reg 7 + 1)

/-- `set_pc`: `self.PC = self.reg[reg_a]` (the JMP handler). -/
def set_pc (s : State) (reg_a : Int) : State :=
  { s with PC := s.reg reg_a }

/-- The `masks` dictionary inside `comparator`; a missing key is a KeyError. -/
def masks (test : String) : Option Int :=
  if test = "eq" then some 0b1
  else if test = "ne" then some 0b1
  else if test = "ge" then some 0b11
  else if test = "gt" then some 0b10
  else if test = "le" then some 0b101
  else if test = "lt" then some 0b100
  else none

/-- `comparator`: conditional jumps.  `flag = self.FL & masks[test]`; jump to
`reg[reg_a]` when the flag test passes, otherwise `PC += 2`. -/
def comparator (s : State) (test : String) (reg_a : Int) : Except String State :=
  match masks test with
  | none => Except.error "KeyError"
  | some mask =>
    let flag := Int.land s.FL mask
    if flag ≠ 0 ∧ test ≠ "ne" then Except.ok { s with PC := s.reg reg_a }
    else if test = "ne" ∧ flag = 0 then Except.ok { s with PC := s.reg reg_a }
    else Except.ok { s with PC := s.PC + 2 }

/-- `ld`: `self.reg[reg_a] = self.ram_read(self.reg[reg_b])`. -/
def ld (s : State) (reg_a reg_b : Int) : State :=
  reg_write s reg_a (ram_read s (s.reg reg_b))

/-- `st`: `self.ram_write(self.reg[reg_a], self.reg[reg_b])`. -/
def st (s : State) (reg_a reg_b : Int) : State :=
  ram_write s (s.reg reg_a) (s.reg reg_b)

/-- `alu`: the arithmetic and logic unit.  The dictionaries of math and
bitwise operations are inlined as a chain of tag comparisons, in the same
order the source tests them.  A tag matched by no branch falls through the
`try` block and returns with the state unchanged, exactly as in the source,
where the bare `except` only fires for exceptions raised inside a matched
operation (division or modulo by zero, a negative shift count). -/
def alu (s : State) (op : String) (reg_a reg_b : Int) : Except String State :=
  if op = "ADD" then Except.ok (reg_write s reg_a (s.reg reg_a + s.reg reg_b))
  else if op = "SUB" then Except.ok (reg_write s reg_a (s.reg reg_a - s.reg reg_b))
  else if op = "MUL" then Except.ok (reg_write s reg_a (s.reg reg_a * s.reg reg_b))
  else if op = "DIV" then
    if s.reg reg_b = 0 then Except.error "Unsupported ALU operation"
    else Except.ok (reg_write s reg_a (Int.fdiv (s.reg reg_a) (s.reg reg_b)))
  else if op = "MOD" then
    if s.reg reg_b = 0 then Except.error "Unsupported ALU operation"
    else Except.ok (reg_write s reg_a (Int.fmod (s.reg reg_a) (s.reg reg_b)))
  else if op = "DEC" then Except.ok (reg_write s reg_a (s.reg reg_a - 1))
  else if op = "INC" then Except.ok (reg_write s reg_a (s.reg reg_a + 1))
  else if op = "AND" then Except.ok (reg_write s reg_a (Int.land (s.reg reg_a) (s.reg reg_b)))
  else if op = "OR" then Except.ok (reg_write s reg_a (Int.lor (s.reg reg_a) (s.reg reg_b)))
  else if op = "XOR" then Except.ok (reg_write s reg_a (Int.xor (s.reg reg_a) (s.reg reg_b)))
  else if op = "NOT" then Except.ok (reg_write s reg_a (Int.lnot (s.reg reg_a)))
  else if op = "SHL" then
    if s.reg reg_b < 0 then Except.error "Unsupported ALU operation"
    else Except.ok (reg_write s reg_a (s.reg reg_a <<< s.reg reg_b))
  else if op = "SHR" then
    if s.reg reg_b < 0 then Except.error "Unsupported ALU operation"
    else Except.ok (reg_write s reg_a (s.reg reg_a >>> (s.reg reg_b).toNat))
  else if op = "CMP" then
    Except.ok { s with FL := if s.reg reg_a = s.reg reg_b then 0b00000001
                             else if s.reg reg_a < s.reg reg_b then 0b00000100
                             else 0b00000010 }
  else Except.ok s

/-- `interrupt`, the one-parameter method: `self.reg[self.IS] = 0b1 << interrupt`. -/
def interrupt (s : State) (inter : Int) : State :=
  reg_write s 6 ((0b1 : Int) <<< inter)

/-- The `inter_vectors` dictionary in `check_interrupts`; keys 0 through 7. -/
def inter_vectors (i : Nat) : Int :=
  match i with
  | 0 => 0xF8
  | 1 => 0xF9
  | 2 => 0xFA
  | 3 => 0xFB
  | 4 => 0xFC
  | 5 => 0xFD
  | 6 => 0xFE
  | 7 => 0xFF
  | _ => 0

/-- `interrupt_prep`: disable interrupts, clear IS, push PC, push FL, then
push registers 0 through 6 (the `for i in range(7)` loop, unrolled). -/
def interrupt_prep (s : State) : State :=
  let s1 := { s with interrupts_allowed := false }
  let s2 := reg_write s1 6 0
  let s3 := reg_write s2 7 (s2.reg 7 - 1)
  let s4 := ram_write s3 (s3.reg 7) s3.PC
  let s5 := reg_write s4 7 (s4.reg 7 - 1)
  let s6 := ram_write s5 (s5.reg 7) s5.FL
  push_stack (push_stack (push_stack (push_stack (push_stack (push_stack
    (push_stack s6 0) 1) 2) 3) 4) 5) 6

/-- `check_interrupts`: compute `IM & IS`, scan bits 0 to 7 for the first set
bit, and on a hit run `interrupt_prep` and jump to the handler address held
in the vector table slot. -/
def check_interrupts (s : State) : State :=
  let masked_interrupts := Int.land (s.reg 5) (s.reg 6)
  match (List.range 8).find? (fun (i : Nat) => Int.land (masked_interrupts >>> i) 1 == 1) with
  | none => s
  | some i =>
    let s1 := interrupt_prep s
    { s1 with PC := ram_read s1 (inter_vectors i) }

/-- `inter_ret` (the IRET handler): pop registers 6 down to 0 (the
`for i in range(6, -1, -1)` loop, unrolled), pop FL, pop PC, re-enable
interrupts and reset the timer baseline to the current time. -/
def inter_ret (s : State) (now : Int) : State :=
  let s1 := pop_stack (pop_stack (pop_stack (pop_stack (pop_stack (pop_stack
    (pop_stack s 6) 5) 4) 3) 2) 1) 0
  let s2 := { s1 with FL := ram_read s1 (s1.reg 7) }
  let s3 := reg_write s2 7 (s2.reg 7 + 1)
  let s4 := { s3 with PC := ram_read s3 (s3.reg 7) }
  let s5 := reg_write s4 7 (s4.reg 7 + 1)
  { s5 with interrupts_allowed := true, timer := now }

/-- `self.op_table`: the dispatch dictionary built in `CPU.__init__`, as the
partial map opcode byte to handler result.  `none` models a missing key.
Two entries reproduce source defects exactly:
* the SUB entry is `lambda a, b: self.alu('SUB, a, b')`, a call with one
  argument to a three-parameter method, so dispatching SUB raises a TypeError
  before `alu` ever runs;
* the INT entry is `lambda a, b: self.interrupt(a, b)`, while the `interrupt`
  method accepts a single argument, so dispatching INT raises a TypeError and
  never stores into the interrupt status register. -/
def op_table (s : State) (IR operand_a operand_b now : Int) : Option (Except String State) :=
  if IR = LDI then some (Except.ok (reg_write s operand_a operand_b))
  else if IR = PRN then some (Except.ok s)
  else if IR = ADD then some (alu s "ADD" operand_a operand_b)
  else if IR = SUB then some (Except.error "TypeError: alu() missing 2 required positional arguments")
  else if IR = MUL then some (alu s "MUL" operand_a operand_b)
  else if IR = DIV then some (alu s "DIV" operand_a operand_b)
  else if IR = MOD then some (alu s "MOD" operand_a operand_b)
  else if IR = DEC then some (alu s "DEC" operand_a operand_b)
  else if IR = INC then some (alu s "INC" operand_a operand_b)
  else if IR = POP then some (Except.ok (pop_stack s operand_a))
  else if IR = PUSH then some (Except.ok (push_stack s operand_a))
  else if IR = CALL then some (Except.ok (call s operand_a))
  else if IR = RET then some (Except.ok (ret s))
  else if IR = CMP then some (alu s "CMP" operand_a operand_b)
  else if IR = JMP then some (Except.ok (set_pc s operand_a))
  else if IR = JEQ then some (comparator s "eq" operand_a)
  else if IR = JNE then some (comparator s "ne" operand_a)
  else if IR = AND then some (alu s "AND" operand_a operand_b)
  else if IR = OR then some (alu s "OR" operand_a operand_b)
  else if IR = XOR then some (alu s "XOR" operand_a operand_b)
  else if IR = NOT then some (alu s "NOT" operand_a operand_b)
  else if IR = SHL then some (alu s "SHL" operand_a operand_b)
  else if IR = SHR then some (alu s "SHR" operand_a operand_b)
  else if IR = INT then some (Except.error "TypeError: interrupt() takes 2 positional arguments but 3 were given")
  else if IR = IRET then some (Except.ok (inter_ret s now))
  else if IR = JGE then some (comparator s "ge" operand_a)
  else if IR = JGT then some (comparator s "gt" operand_a)
  else if IR = JLE then some (comparator s "le" operand_a)
  else if IR = JLT then some (comparator s "lt" operand_a)
  else if IR = LD then some (Except.ok (ld s operand_a operand_b))
  else if IR = ST then some (Except.ok (st s operand_a operand_b))
  else if IR = PRA then some (Except.ok s)
  else none

/-- Outcome of one pass through the body of the `while not halted` loop. -/
inductive StepResult where
  | next (s : State)
  | halted (s : State)
  | exited (msg : String) (code : Nat)
  | crashed (msg : String)

/-- The fetch-dispatch-advance part of the loop body in `run`: fetch the
opcode and the two following bytes, dispatch through `op_table`, and when the
opcode is in the table and its handler returns, auto-advance PC by
`(IR >> 6) + 1` unless bit 4 of the opcode (`(IR & 0b10000) >> 4`) is set.
A missing opcode is HLT (halt), NOP (`continue`, which leaves PC untouched)
or the fatal `print` plus `sys.exit(1)` path. -/
def fetchExec (s : State) (now : Int) : StepResult :=
  let IR := ram_read s s.PC
  let operand_a := ram_read s (s.PC + 1)
  let operand_b := ram_read s (s.PC + 2)
  match op_table s IR operand_a operand_b now with
  | some (Except.error e) => StepResult.crashed e
  | some (Except.ok s1) =>
    let operands := IR >>> (6 : Nat)
    let set_directly := (Int.land IR 0b10000) >>> (4 : Nat)
    if set_directly = 0 then StepResult.next { s1 with PC := s1.PC + operands + 1 }
    else StepResult.next s1
  | none =>
    if IR = HLT then StepResult.halted s
    else if IR = NOP then StepResult.next s
    else StepResult.exited "Unknown instruction" 1

/-- One full iteration of the loop body in `run`.  When interrupts are
allowed the timer and keyboard are polled and `check_interrupts` runs; the
wall-clock comparison outcome and the pressed key are external inputs
(`elapsed`, `key`).  When interrupts are not allowed the whole polling block
is skipped and the iteration is just `fetchExec`. -/
def step (s : State) (elapsed : Bool) (key : Option Int) (now : Int) : StepResult :=
  let s0 :=
    if s.interrupts_allowed then
      let s1 := if elapsed then interrupt { s with timer := now } 0 else s
      let s2 := match key with
        | some code => interrupt (ram_write s1 KEY code) 1
        | none => s1
      check_interrupts s2
    else s
  fetchExec s0 now

/-- Outcome of running the loop for a bounded number of iterations. -/
inductive RunResult where
  | running (s : State)
  | halt (s : State)
  | exited (msg : String) (code : Nat)
  | crashed (msg : String)

/-- The `while not halted` loop of `run`, fuelled, with no external interrupt
sources firing (the timer never elapses and no key is pressed). -/
def run (s : State) (fuel : Nat) (now : Int) : RunResult :=
  match fuel with
  | 0 => RunResult.running s
  | Nat.succ n =>
    match step s false none now with
    | StepResult.next s1 => run s1 n now
    | StepResult.halted s1 => RunResult.halt s1
    | StepResult.exited msg code => RunResult.exited msg code
    | StepResult.crashed msg => RunResult.crashed msg

/-- The state built by `CPU.__init__`: everything zero except the stack
pointer, which starts at 0xF4. -/
def initState : State :=
  { PC := 0, FL := 0, ram := fun _ => 0,
    reg := fun i => if i = 7 then 0xF4 else 0,
    interrupts_allowed := true, timer := 0 }

/-- The opcodes whose handlers assign `self.reg[operand_a]`. -/
def reg_target_ops : List Int :=
  [LDI, ADD, SUB, MUL, DIV, MOD, DEC, INC, POP, LD, AND, OR, XOR, NOT, SHL, SHR]

/-- Whether dispatching opcode `IR` with first operand `operand_a` can write
register 6 (the interrupt status register): either the handler assigns
`reg[operand_a]` with `operand_a = 6`, or the opcode is IRET, whose handler
pops a value into register 6 unconditionally. -/
def writes_reg6 (IR operand_a : Int) : Bool :=
  IR == IRET || (operand_a == 6 && reg_target_ops.contains IR)

/-- The operation tags handled by some branch of `alu`. -/
def alu_tags : List String :=
  ["ADD", "SUB", "MUL", "DIV", "MOD", "DEC", "INC",
   "AND", "OR", "XOR", "NOT", "SHL", "SHR", "CMP"]

/-- A state holding the byte values 200 and 100 in registers 0 and 1. -/
def c1_state : State :=
  { initState with reg := fun i => if i = 0 then 200 else if i = 1 then 100
                                   else if i = 7 then 0xF4 else 0 }

/-- A state whose program is the single instruction `LDI R3, 42`. -/
def c5_state : State :=
  { initState with ram := fun i => if i = 0 then LDI else if i = 1 then 3
                                   else if i = 2 then 42 else 0 }

/-- The initial state with interrupts disabled. -/
def c7_state : State :=
  { initState with interrupts_allowed := false }

/-- A state whose memory is filled with the unmapped opcode byte 0xFF,
with interrupts disabled. -/
def c9_state : State :=
  { initState with ram := fun _ => 0xFF, interrupts_allowed := false }

/-- C1: the claim says executing ADD, SUB or MUL on registers holding byte
values v_a, v_b leaves reg[a] = (v_a OP v_b) mod 256.  Evaluating the code at
the failing input reg0 = 200, reg1 = 100: ADD stores 300 (not 300 mod 256 =
44) and MUL stores 20000 (not 20000 mod 256 = 32), because the ALU never
masks to 8 bits; and dispatching SUB raises a TypeError, because its table
entry calls `self.alu('SUB, a, b')` with the whole argument list quoted into
one string, so no subtraction happens at all. -/
theorem c1_add_mul_unmasked_sub_crashes :
    (op_table c1_state ADD 0 1 0).map (fun r => r.map (fun t => t.reg 0)) = some (Except.ok 300)
    ∧ ((200 + 100) % 256 : Int) = 44
    ∧ (op_table c1_state MUL 0 1 0).map (fun r => r.map (fun t => t.reg 0)) = some (Except.ok 20000)
    ∧ ((200 * 100) % 256 : Int) = 32
    ∧ op_table c1_state SUB 0 1 0
        = some (Except.error "TypeError: alu() missing 2 required positional arguments") :=
  ⟨rfl, by decide, rfl, by decide, rfl⟩

/-- C2: the claim says a NO-OP advances PC by exactly 1 so the loop continues
at the next byte.  Evaluating the code on the initial state, whose first
fetched byte is NOP: the `continue` branch leaves the whole state, PC
included, unchanged, so the loop refetches the same NOP forever; the run
loop never progresses past the NO-OP. -/
theorem c2_nop_does_not_advance_pc :
    fetchExec initState 0 = StepResult.next initState
    ∧ initState.PC = 0
    ∧ ram_read initState initState.PC = NOP
    ∧ ∀ n : Nat, run initState n 0 = RunResult.running initState := by
  refine ⟨rfl, rfl, rfl, ?_⟩
  intro n
  induction n with
  | zero => rfl
  | succ k ih => exact ih

/-- C3: the claim says an operation tag outside the supported set makes the
ALU produce a fatal error rather than a silent no-op.  In the code the `try`
body tests the tag against the math table, the bitwise table and CMP, and a
tag matched by nowhere simply falls off the end of the chain: no exception is
raised (the bare `except` only fires for exceptions raised inside a matched
operation), and the ALU returns with the machine state unchanged. -/
theorem c3_unsupported_alu_tag_is_silent (op : String) (reg_a reg_b : Int) (s : State)
    (h : op ∉ alu_tags) : alu s op reg_a reg_b = Except.ok s := by
  simp only [alu_tags, List.mem_cons, List.not_mem_nil, or_false, not_or] at h
  obtain ⟨h1, h2, h3, h4, h5, h6, h7, h8, h9, h10, h11, h12, h13, h14⟩ := h
  simp [alu, h1, h2, h3, h4, h5, h6, h7, h8, h9, h10, h11, h12, h13, h14]

/-- C3 witness: the tag FOO is unsupported, and the ALU silently returns the
unchanged initial state. -/
theorem c3_witness : alu initState "FOO" 0 1 = Except.ok initState :=
  c3_unsupported_alu_tag_is_silent "FOO" 0 1 initState (by decide)

/-- C10: the dispatch-table entry for INT calls the interrupt-request method
with two arguments while the method accepts one, so executing INT raises a
TypeError for every pair of operands: it never returns a successor state to
the loop (hence never sets an interrupt-status bit). -/
theorem c10_int_dispatch_raises (s : State) (a b now : Int) :
    op_table s INT a b now
      = some (Except.error "TypeError: interrupt() takes 2 positional arguments but 3 were given")
    ∧ ∀ s1, op_table s INT a b now ≠ some (Except.ok s1) := by
  refine ⟨rfl, fun s1 hok => ?_⟩
  have h0 : op_table s INT a b now
      = some (Except.error "TypeError: interrupt() takes 2 positional arguments but 3 were given") := rfl
  rw [h0] at hok
  cases Option.some.inj hok

/-- C4: for every pair of byte values in the compared registers, the compare
operation rewrites FL to exactly one of the three codes 1 (equal), 4 (less
than) and 2 (greater than), chosen by the unsigned comparison of the two
register values, and the codes are mutually exclusive; registers, memory and
PC are untouched.  The previous FL contents are discarded entirely. -/
theorem c4_cmp_sets_exactly_one_flag (s : State) (a b : Int)
    (ha0 : 0 ≤ s.reg a) (ha1 : s.reg a < 256) (hb0 : 0 ≤ s.reg b) (hb1 : s.reg b < 256) :
    ∃ s1, alu s "CMP" a b = Except.ok s1
      ∧ (s1.FL = 1 ↔ s.reg a = s.reg b)
      ∧ (s1.FL = 4 ↔ s.reg a < s.reg b)
      ∧ (s1.FL = 2 ↔ s.reg b < s.reg a)
      ∧ (s1.FL = 1 ∨ s1.FL = 4 ∨ s1.FL = 2)
      ∧ s1.reg = s.reg ∧ s1.ram = s.ram ∧ s1.PC = s.PC := by
  have key : ∀ x y : Int,
      ((if x = y then (1 : Int) else if x < y then 4 else 2) = 1 ↔ x = y)
      ∧ ((if x = y then (1 : Int) else if x < y then 4 else 2) = 4 ↔ x < y)
      ∧ ((if x = y then (1 : Int) else if x < y then 4 else 2) = 2 ↔ y < x)
      ∧ ((if x = y then (1 : Int) else if x < y then 4 else 2) = 1
          ∨ (if x = y then (1 : Int) else if x < y then 4 else 2) = 4
          ∨ (if x = y then (1 : Int) else if x < y then 4 else 2) = 2) := by
    intro x y
    split_ifs with h1 h2 <;> omega
  exact ⟨{ s with FL := if s.reg a = s.reg b then 1 else if s.reg a < s.reg b then 4 else 2 },
    rfl, (key _ _).1, (key _ _).2.1, (key _ _).2.2.1, (key _ _).2.2.2, rfl, rfl, rfl⟩

/-- C4 witness: comparing registers 0 and 1 of the state holding 200 and 100
sets the greater-than code. -/
theorem c4_witness :
    ∃ s1, alu c1_state "CMP" 0 1 = Except.ok s1
      ∧ (s1.FL = 1 ↔ c1_state.reg 0 = c1_state.reg 1)
      ∧ (s1.FL = 4 ↔ c1_state.reg 0 < c1_state.reg 1)
      ∧ (s1.FL = 2 ↔ c1_state.reg 1 < c1_state.reg 0)
      ∧ (s1.FL = 1 ∨ s1.FL = 4 ∨ s1.FL = 2)
      ∧ s1.reg = c1_state.reg ∧ s1.ram = c1_state.ram ∧ s1.PC = c1_state.PC :=
  c4_cmp_sets_exactly_one_flag c1_state 0 1 (by decide) (by decide) (by decide) (by decide)

/-- C5: whenever the fetched opcode is in the dispatch table and its handler
returns a state, the control unit auto-advances PC by (IR >> 6) + 1, one plus
the operand count held in the top two opcode bits, exactly when bit 4 of the
opcode is clear; when bit 4 is set, the resulting state is exactly the state
the handler produced, PC included. -/
theorem c5_auto_advance_iff_bit4_clear (s s1 : State) (now : Int)
    (h : op_table s (ram_read s s.PC) (ram_read s (s.PC + 1)) (ram_read s (s.PC + 2)) now
          = some (Except.ok s1)) :
    ((Int.land (ram_read s s.PC) 0b10000) >>> (4 : Nat) = 0 →
      fetchExec s now
        = StepResult.next { s1 with PC := s1.PC + (ram_read s s.PC) >>> (6 : Nat) + 1 })
    ∧ ((Int.land (ram_read s s.PC) 0b10000) >>> (4 : Nat) ≠ 0 →
      fetchExec s now = StepResult.next s1) := by
  constructor <;> intro hbit <;> simp [fetchExec, h, hbit]

/-- C5 witness: `LDI R3, 42` has two operands and a clear bit 4, so after the
handler runs PC is advanced from 0 to 3. -/
theorem c5_witness :
    fetchExec c5_state 0 = StepResult.next { reg_write c5_state 3 42 with PC := 3 } := by
  have h := (c5_auto_advance_iff_bit4_clear c5_state (reg_write c5_state 3 42) 0 rfl).1 (by decide)
  exact h

/-- C8: executing CALL pushes the call-site address plus 2 and jumps; if the
subroutine body (an arbitrary state transformation `f`) preserves the stack
pointer and the stack cell holding the return address, the following RET
lands PC exactly at call-site + 2 — not at the call-site itself — and
restores the stack pointer. -/
theorem c8_call_ret_returns_past_call (s : State) (a : Int) (f : State → State)
    (h7 : (f (call s a)).reg 7 = (call s a).reg 7)
    (hcell : (f (call s a)).ram ((call s a).reg 7) = (call s a).ram ((call s a).reg 7)) :
    (ret (f (call s a))).PC = s.PC + 2
    ∧ (ret (f (call s a))).PC ≠ s.PC
    ∧ (ret (f (call s a))).reg 7 = s.reg 7 := by
  have hsp : (call s a).reg 7 = s.reg 7 - 1 := by
    simp [call, reg_write, ram_write]
  have hval : (call s a).ram (s.reg 7 - 1) = s.PC + 2 := by
    simp [call, reg_write, ram_write]
  have hpc : (ret (f (call s a))).PC = s.PC + 2 := by
    have e1 : (ret (f (call s a))).PC = (f (call s a)).ram ((f (call s a)).reg 7) := by
      simp [ret, reg_write, ram_read]
    rw [hsp] at hcell
    rw [e1, h7, hsp, hcell, hval]
  have hreg : (ret (f (call s a))).reg 7 = s.reg 7 := by
    have : (ret (f (call s a))).reg 7 = (f (call s a)).reg 7 + 1 := by
      simp [ret, reg_write, ram_read]
    rw [this, h7, hsp]
    omega
  exact ⟨hpc, by omega, hreg⟩

/-- C8 witness: a CALL from the initial state followed immediately by RET
(the subroutine body is the identity) puts PC at 0 + 2 = 2 and restores the
stack pointer to 0xF4. -/
theorem c8_witness :
    (ret (id (call initState 0))).PC = initState.PC + 2
    ∧ (ret (id (call initState 0))).PC ≠ initState.PC
    ∧ (ret (id (call initState 0))).reg 7 = initState.reg 7 :=
  c8_call_ret_returns_past_call initState 0 id rfl rfl

/-- C9: when the fetched opcode byte is not a key of the dispatch table and
is neither HLT nor NOP, the iteration prints the diagnostic and exits with
status 1, and the run loop executes no further instruction: it yields the
same exit outcome however much fuel remains. -/
theorem c9_unknown_opcode_exits (s : State) (now : Int)
    (htable : op_table s (ram_read s s.PC) (ram_read s (s.PC + 1)) (ram_read s (s.PC + 2)) now
               = none)
    (hH : ram_read s s.PC ≠ HLT) (hN : ram_read s s.PC ≠ NOP)
    (hallow : s.interrupts_allowed = false) :
    fetchExec s now = StepResult.exited "Unknown instruction" 1
    ∧ ∀ n : Nat, run s (n + 1) now = RunResult.exited "Unknown instruction" 1 := by
  have hfe : fetchExec s now = StepResult.exited "Unknown instruction" 1 := by
    simp [fetchExec, htable, hH, hN]
  refine ⟨hfe, fun n => ?_⟩
  have hstep : step s false none now = StepResult.exited "Unknown instruction" 1 := by
    simp [step, hallow]
    exact hfe
  simp [run, hstep]

/-- C9 witness: the byte 0xFF is not in the dispatch table and is neither
HLT nor NOP, so the machine exits with status 1 immediately. -/
theorem c9_witness :
    fetchExec c9_state 0 = StepResult.exited "Unknown instruction" 1
    ∧ ∀ n : Nat, run c9_state (n + 1) 0 = RunResult.exited "Unknown instruction" 1 :=
  c9_unknown_opcode_exits c9_state 0 rfl (by decide) (by decide) rfl

set_option maxHeartbeats 1600000 in
/-- C6: dispatching an interrupt saves the context with `interrupt_prep`
(push PC, then FL, then registers 0 through 6) and redirects PC to the
handler; an interrupt-return with no intervening stack mutation (pops 6 down
to 0, FL, PC) restores PC, FL, registers 0 through 5 and the stack pointer
to their pre-interrupt values and re-enables interrupts.  Register 6, the
interrupt status register, is cleared before being pushed, so only 0 through
5 are claimed.  The hypothesis keeps the nine pushed cells on the stack. -/
theorem c6_interrupt_round_trip (s : State) (handler now : Int) (h : 9 ≤ s.reg 7) :
    (inter_ret { interrupt_prep s with PC := handler } now).PC = s.PC
    ∧ (inter_ret { interrupt_prep s with PC := handler } now).FL = s.FL
    ∧ (inter_ret { interrupt_prep s with PC := handler } now).reg 0 = s.reg 0
    ∧ (inter_ret { interrupt_prep s with PC := handler } now).reg 1 = s.reg 1
    ∧ (inter_ret { interrupt_prep s with PC := handler } now).reg 2 = s.reg 2
    ∧ (inter_ret { interrupt_prep s with PC := handler } now).reg 3 = s.reg 3
    ∧ (inter_ret { interrupt_prep s with PC := handler } now).reg 4 = s.reg 4
    ∧ (inter_ret { interrupt_prep s with PC := handler } now).reg 5 = s.reg 5
    ∧ (inter_ret { interrupt_prep s with PC := handler } now).reg 7 = s.reg 7
    ∧ (inter_ret { interrupt_prep s with PC := handler } now).interrupts_allowed = true := by
  refine ⟨?_, ?_, ?_, ?_, ?_, ?_, ?_, ?_, ?_, ?_⟩ <;>
    simp [inter_ret, interrupt_prep, pop_stack, push_stack, reg_write, ram_write, ram_read] <;>
    first
      | rfl
      | omega

/-- C6 witness: from the initial state (stack pointer 0xF4 = 244, so the
hypothesis 9 ≤ 244 holds) the context survives a round trip through the
timer vector address. -/
theorem c6_witness :
    (inter_ret { interrupt_prep initState with PC := 0xF8 } 0).PC = initState.PC
    ∧ (inter_ret { interrupt_prep initState with PC := 0xF8 } 0).FL = initState.FL
    ∧ (inter_ret { interrupt_prep initState with PC := 0xF8 } 0).reg 0 = initState.reg 0
    ∧ (inter_ret { interrupt_prep initState with PC := 0xF8 } 0).reg 1 = initState.reg 1
    ∧ (inter_ret { interrupt_prep initState with PC := 0xF8 } 0).reg 2 = initState.reg 2
    ∧ (inter_ret { interrupt_prep initState with PC := 0xF8 } 0).reg 3 = initState.reg 3
    ∧ (inter_ret { interrupt_prep initState with PC := 0xF8 } 0).reg 4 = initState.reg 4
    ∧ (inter_ret { interrupt_prep initState with PC := 0xF8 } 0).reg 5 = initState.reg 5
    ∧ (inter_ret { interrupt_prep initState with PC := 0xF8 } 0).reg 7 = initState.reg 7
    ∧ (inter_ret { interrupt_prep initState with PC := 0xF8 } 0).interrupts_allowed = true :=
  c6_interrupt_round_trip initState 0xF8 0 (by decide)

/-- Helper: rewriting one register other than 6 preserves register 6 and the
interrupt enable flag. -/
theorem reg6_of_reg_write (s : State) (a v : Int) (s1 : State)
    (h : reg_write s a v = s1) (ha : (6 : Int) ≠ a) :
    s1.reg 6 = s.reg 6 ∧ s1.interrupts_allowed = s.interrupts_allowed := by
  subst h
  exact ⟨by simp [reg_write, ha], rfl⟩

/-- Helper: every branch of the conditional-jump helper only rewrites PC, so
register 6 and the interrupt enable flag survive. -/
theorem comparator_branch_reg6 (s : State) (t : String) (m a : Int) (s1 : State)
    (h : (if Int.land s.FL m ≠ 0 ∧ t ≠ "ne" then Except.ok { s with PC := s.reg a }
          else if t = "ne" ∧ Int.land s.FL m = 0 then Except.ok { s with PC := s.reg a }
          else Except.ok { s with PC := s.PC + 2 } : Except String State) = Except.ok s1) :
    s1.reg 6 = s.reg 6 ∧ s1.interrupts_allowed = s.interrupts_allowed := by
  split_ifs at h <;> (have h2 := Except.ok.inj h; subst h2; exact ⟨rfl, rfl⟩)

set_option maxHeartbeats 1600000 in
/-- Helper: a successful dispatch through the operation table, for an opcode
and first operand that do not write register 6, preserves register 6 and the
interrupt enable flag. -/
theorem op_table_ok_reg6 (s : State) (IR a b now : Int) (s1 : State)
    (h : op_table s IR a b now = some (Except.ok s1))
    (hw : writes_reg6 IR a = false) :
    s1.reg 6 = s.reg 6 ∧ s1.interrupts_allowed = s.interrupts_allowed := by
  have hnot : ¬ (a = 6 ∧ reg_target_ops.contains IR = true) := by
    rintro ⟨ha6, hc⟩
    rw [writes_reg6, ha6, hc] at hw
    simp at hw
  have hIRET : IR ≠ IRET := by
    intro hh
    rw [writes_reg6, hh] at hw
    simp at hw
  unfold op_table at h
  by_cases h1 : IR = LDI
  · have ha : (6 : Int) ≠ a := fun he => hnot ⟨he.symm, by rw [h1]; decide⟩
    rw [if_pos h1] at h
    exact reg6_of_reg_write s a b s1 (Except.ok.inj (Option.some.inj h)) ha
  rw [if_neg h1] at h
  by_cases h2 : IR = PRN
  · rw [if_pos h2] at h
    have h0 := Except.ok.inj (Option.some.inj h)
    subst h0
    exact ⟨rfl, rfl⟩
  rw [if_neg h2] at h
  by_cases h3 : IR = ADD
  · have ha : (6 : Int) ≠ a := fun he => hnot ⟨he.symm, by rw [h3]; decide⟩
    rw [if_pos h3] at h
    exact reg6_of_reg_write s a _ s1 (Except.ok.inj (Option.some.inj h)) ha
  rw [if_neg h3] at h
  by_cases h4 : IR = SUB
  · rw [if_pos h4] at h
    exact Except.noConfusion (Option.some.inj h)
  rw [if_neg h4] at h
  by_cases h5 : IR = MUL
  · have ha : (6 : Int) ≠ a := fun he => hnot ⟨he.symm, by rw [h5]; decide⟩
    rw [if_pos h5] at h
    exact reg6_of_reg_write s a _ s1 (Except.ok.inj (Option.some.inj h)) ha
  rw [if_neg h5] at h
  by_cases h6 : IR = DIV
  · have ha : (6 : Int) ≠ a := fun he => hnot ⟨he.symm, by rw [h6]; decide⟩
    rw [if_pos h6] at h
    have h0 := Option.some.inj h
    have heq : alu s "DIV" a b
        = (if s.reg b = 0 then (Except.error "Unsupported ALU operation" : Except String State)
           else Except.ok (reg_write s a (Int.fdiv (s.reg a) (s.reg b)))) := rfl
    rw [heq] at h0
    split_ifs at h0 with hz
    exact reg6_of_reg_write s a _ s1 (Except.ok.inj h0) ha
  rw [if_neg h6] at h
  by_cases h7 : IR = MOD
  · have ha : (6 : Int) ≠ a := fun he => hnot ⟨he.symm, by rw [h7]; decide⟩
    rw [if_pos h7] at h
    have h0 := Option.some.inj h
    have heq : alu s "MOD" a b
        = (if s.reg b = 0 then (Except.error "Unsupported ALU operation" : Except String State)
           else Except.ok (reg_write s a (Int.fmod (s.reg a) (s.reg b)))) := rfl
    rw [heq] at h0
    split_ifs at h0 with hz
    exact reg6_of_reg_write s a _ s1 (Except.ok.inj h0) ha
  rw [if_neg h7] at h
  by_cases h8 : IR = DEC
  · have ha : (6 : Int) ≠ a := fun he => hnot ⟨he.symm, by rw [h8]; decide⟩
    rw [if_pos h8] at h
    exact reg6_of_reg_write s a _ s1 (Except.ok.inj (Option.some.inj h)) ha
  rw [if_neg h8] at h
  by_cases h9 : IR = INC
  · have ha : (6 : Int) ≠ a := fun he => hnot ⟨he.symm, by rw [h9]; decide⟩
    rw [if_pos h9] at h
    exact reg6_of_reg_write s a _ s1 (Except.ok.inj (Option.some.inj h)) ha
  rw [if_neg h9] at h
  by_cases h10 : IR = POP
  · have ha : (6 : Int) ≠ a := fun he => hnot ⟨he.symm, by rw [h10]; decide⟩
    rw [if_pos h10] at h
    have h0 := Except.ok.inj (Option.some.inj h)
    subst h0
    exact ⟨by simp [pop_stack, reg_write, ram_read, ha], rfl⟩
  rw [if_neg h10] at h
  by_cases h11 : IR = PUSH
  · rw [if_pos h11] at h
    have h0 := Except.ok.inj (Option.some.inj h)
    subst h0
    exact ⟨rfl, rfl⟩
  rw [if_neg h11] at h
  by_cases h12 : IR = CALL
  · rw [if_pos h12] at h
    have h0 := Except.ok.inj (Option.some.inj h)
    subst h0
    exact ⟨rfl, rfl⟩
  rw [if_neg h12] at h
  by_cases h13 : IR = RET
  · rw [if_pos h13] at h
    have h0 := Except.ok.inj (Option.some.inj h)
    subst h0
    exact ⟨rfl, rfl⟩
  rw [if_neg h13] at h
  by_cases h14 : IR = CMP
  · rw [if_pos h14] at h
    have h0 := Except.ok.inj (Option.some.inj h)
    subst h0
    exact ⟨rfl, rfl⟩
  rw [if_neg h14] at h
  by_cases h15 : IR = JMP
  · rw [if_pos h15] at h
    have h0 := Except.ok.inj (Option.some.inj h)
    subst h0
    exact ⟨rfl, rfl⟩
  rw [if_neg h15] at h
  by_cases h16 : IR = JEQ
  · rw [if_pos h16] at h
    exact comparator_branch_reg6 s "eq" 1 a s1 (Option.some.inj h)
  rw [if_neg h16] at h
  by_cases h17 : IR = JNE
  · rw [if_pos h17] at h
    exact comparator_branch_reg6 s "ne" 1 a s1 (Option.some.inj h)
  rw [if_neg h17] at h
  by_cases h18 : IR = AND
  · have ha : (6 : Int) ≠ a := fun he => hnot ⟨he.symm, by rw [h18]; decide⟩
    rw [if_pos h18] at h
    exact reg6_of_reg_write s a _ s1 (Except.ok.inj (Option.some.inj h)) ha
  rw [if_neg h18] at h
  by_cases h19 : IR = OR
  · have ha : (6 : Int) ≠ a := fun he => hnot ⟨he.symm, by rw [h19]; decide⟩
    rw [if_pos h19] at h
    exact reg6_of_reg_write s a _ s1 (Except.ok.inj (Option.some.inj h)) ha
  rw [if_neg h19] at h
  by_cases h20 : IR = XOR
  · have ha : (6 : Int) ≠ a := fun he => hnot ⟨he.symm, by rw [h20]; decide⟩
    rw [if_pos h20] at h
    exact reg6_of_reg_write s a _ s1 (Except.ok.inj (Option.some.inj h)) ha
  rw [if_neg h20] at h
  by_cases h21 : IR = NOT
  · have ha : (6 : Int) ≠ a := fun he => hnot ⟨he.symm, by rw [h21]; decide⟩
    rw [if_pos h21] at h
    exact reg6_of_reg_write s a _ s1 (Except.ok.inj (Option.some.inj h)) ha
  rw [if_neg h21] at h
  by_cases h22 : IR = SHL
  · have ha : (6 : Int) ≠ a := fun he => hnot ⟨he.symm, by rw [h22]; decide⟩
    rw [if_pos h22] at h
    have h0 := Option.some.inj h
    have heq : alu s "SHL" a b
        = (if s.reg b < 0 then (Except.error "Unsupported ALU operation" : Except String State)
           else Except.ok (reg_write s a (s.reg a <<< s.reg b))) := rfl
    rw [heq] at h0
    split_ifs at h0 with hz
    exact reg6_of_reg_write s a _ s1 (Except.ok.inj h0) ha
  rw [if_neg h22] at h
  by_cases h23 : IR = SHR
  · have ha : (6 : Int) ≠ a := fun he => hnot ⟨he.symm, by rw [h23]; decide⟩
    rw [if_pos h23] at h
    have h0 := Option.some.inj h
    have heq : alu s "SHR" a b
        = (if s.reg b < 0 then (Except.error "Unsupported ALU operation" : Except String State)
           else Except.ok (reg_write s a (s.reg a >>> (s.reg b).toNat))) := rfl
    rw [heq] at h0
    split_ifs at h0 with hz
    exact reg6_of_reg_write s a _ s1 (Except.ok.inj h0) ha
  rw [if_neg h23] at h
  by_cases h24 : IR = INT
  · rw [if_pos h24] at h
    exact Except.noConfusion (Option.some.inj h)
  rw [if_neg h24] at h
  by_cases h25 : IR = IRET
  · exact absurd h25 hIRET
  rw [if_neg h25] at h
  by_cases h26 : IR = JGE
  · rw [if_pos h26] at h
    exact comparator_branch_reg6 s "ge" 3 a s1 (Option.some.inj h)
  rw [if_neg h26] at h
  by_cases h27 : IR = JGT
  · rw [if_pos h27] at h
    exact comparator_branch_reg6 s "gt" 2 a s1 (Option.some.inj h)
  rw [if_neg h27] at h
  by_cases h28 : IR = JLE
  · rw [if_pos h28] at h
    exact comparator_branch_reg6 s "le" 5 a s1 (Option.some.inj h)
  rw [if_neg h28] at h
  by_cases h29 : IR = JLT
  · rw [if_pos h29] at h
    exact comparator_branch_reg6 s "lt" 4 a s1 (Option.some.inj h)
  rw [if_neg h29] at h
  by_cases h30 : IR = LD
  · have ha : (6 : Int) ≠ a := fun he => hnot ⟨he.symm, by rw [h30]; decide⟩
    rw [if_pos h30] at h
    exact reg6_of_reg_write s a _ s1 (Except.ok.inj (Option.some.inj h)) ha
  rw [if_neg h30] at h
  by_cases h31 : IR = ST
  · rw [if_pos h31] at h
    have h0 := Except.ok.inj (Option.some.inj h)
    subst h0
    exact ⟨rfl, rfl⟩
  rw [if_neg h31] at h
  by_cases h32 : IR = PRA
  · rw [if_pos h32] at h
    have h0 := Except.ok.inj (Option.some.inj h)
    subst h0
    exact ⟨rfl, rfl⟩
  rw [if_neg h32] at h
  exact Option.noConfusion h

/-- C7: during a step taken while interrupts are disallowed, the entire
polling block is skipped, so the step is exactly the fetch-dispatch part and
no interrupt is dispatched regardless of the pending IS bits and external
events; and if the executed instruction does not itself write register 6,
the IS register survives the step unchanged and interrupts stay disallowed
(only the interrupt-return opcode, excluded here because it writes register
6, restores the flag). -/
theorem c7_no_dispatch_while_disallowed (s : State) (elapsed : Bool) (key : Option Int)
    (now : Int) (hallow : s.interrupts_allowed = false) :
    step s elapsed key now = fetchExec s now
    ∧ (∀ s1, fetchExec s now = StepResult.next s1 →
        writes_reg6 (ram_read s s.PC) (ram_read s (s.PC + 1)) = false →
        s1.reg 6 = s.reg 6 ∧ s1.interrupts_allowed = false) := by
  constructor
  · simp [step, hallow]
  · intro s1 hnext hw
    rcases hop : op_table s (ram_read s s.PC) (ram_read s (s.PC + 1)) (ram_read s (s.PC + 2)) now
      with _ | e | s2
    · simp only [fetchExec, hop] at hnext
      split_ifs at hnext with hH hN
      cases StepResult.next.inj hnext
      exact ⟨rfl, hallow⟩
    · simp only [fetchExec, hop] at hnext
      exact StepResult.noConfusion hnext
    · have hpres := op_table_ok_reg6 s (ram_read s s.PC) (ram_read s (s.PC + 1))
        (ram_read s (s.PC + 2)) now s2 hop hw
      simp only [fetchExec, hop] at hnext
      split_ifs at hnext
      · cases StepResult.next.inj hnext
        exact ⟨hpres.1, hpres.2.trans hallow⟩
      · cases StepResult.next.inj hnext
        exact ⟨hpres.1, hpres.2.trans hallow⟩

/-- C7 witness: the initial state with interrupts disabled fetches a NO-OP,
which does not write register 6; the step is the bare fetch-dispatch and
register 6 and the disabled flag survive. -/
theorem c7_witness :
    step c7_state false none 0 = fetchExec c7_state 0
    ∧ (∀ s1, fetchExec c7_state 0 = StepResult.next s1 →
        writes_reg6 (ram_read c7_state c7_state.PC) (ram_read c7_state (c7_state.PC + 1)) = false →
        s1.reg 6 = c7_state.reg 6 ∧ s1.interrupts_allowed = false) :=
  c7_no_dispatch_while_disallowed c7_state false none 0 rfl

end LS8
